import Mathlib

/-!
Verification of the MockupAI virtual try-on front end.

This file gives a shallow embedding of the application's core logic:
the upload registry (`handleFiles` of the `ImageUploader` component),
the submit guard (`isGenerateButtonDisabled`), the batch orchestrator
(`handleGenerate`), mode switching (`handleModeChange`) and the zip
packaging utility (`downloadAllAsZip`).  The external generative-image
service is modelled by an oracle mapping the call index and call
descriptor to either a produced image handle or a failure; the browser
fetch used by packaging is modelled the same way.  Theorems below settle
the specification's testable properties against these definitions.
-/

/-- A browser file as the upload handler sees it: a display name and a
MIME type string (`file.name`, `file.type`). -/
structure File where
  name : String
  type : String
  deriving DecidableEq, Inhabited, Repr

/-- `ImageFile` from `types.ts`: the wrapped file, a preview handle and
the display name. -/
structure ImageFile where
  file : File
  preview : String
  name : String
  deriving DecidableEq, Inhabited, Repr

/-- Model of `URL.createObjectURL`: a display handle derived from the file. -/
def createObjectURL (f : File) : String := "blob:" ++ f.name

/-- The `ImageFile` record built by `handleFiles` for one accepted file. -/
def mkImageFile (f : File) : ImageFile :=
  { file := f, preview := createObjectURL f, name := f.name }

/-- Model of `String.prototype.startsWith`, at the character level. -/
def jsStartsWith (s pre : String) : Bool := List.isPrefixOf pre.data s.data

/-- Model of `String.prototype.trim`: strip leading and trailing
whitespace, at the character level. -/
def jsTrim (s : String) : String :=
  ⟨((s.data.dropWhile Char.isWhitespace).reverse.dropWhile Char.isWhitespace).reverse⟩

/-- The filter applied by `handleFiles`: `file.type.startsWith('image/')`. -/
def isImagePayload (f : File) : Bool := jsStartsWith f.type "image/"

/-- The `ImageUploader` props that drive `handleFiles`: `multiple` and the
optional `limit`. -/
structure UploaderProps where
  multiple : Bool
  limit : Option Nat
  deriving DecidableEq, Repr

/-- `handleFiles` of `ImageUploader`.  Input: the props, the current
`uploadedFiles` state and the (possibly null) dropped file list.  Output:
the new `uploadedFiles` state and the argument passed to `onFilesChange`
(`none` when no notification is emitted).  Non-image payloads are
filtered out; an all-filtered batch returns early; a single-select slot
keeps only the last file of the batch (`slice(-1)`); a multi-select slot
appends and, when a non-zero limit is configured and exceeded, truncates
from the front keeping the most recent `limit` entries. -/
def handleFiles (props : UploaderProps) (uploadedFiles : List ImageFile)
    (files : Option (List File)) : List ImageFile × Option (List ImageFile) :=
  match files with
  | none => (uploadedFiles, none)
  | some fs =>
    let newImageFiles : List ImageFile := (fs.filter isImagePayload).map mkImageFile
    if newImageFiles.length == 0 then (uploadedFiles, none)
    else
      let updatedFiles : List ImageFile :=
        if props.multiple then
          let appended := uploadedFiles ++ newImageFiles
          match props.limit with
          | some limit =>
            if limit ≠ 0 ∧ limit < appended.length then
              appended.drop (appended.length - limit)
            else appended
          | none => appended
        else
          newImageFiles.drop (newImageFiles.length - 1)
      (updatedFiles, some updatedFiles)

/-- `removeFile` of `ImageUploader`: drop every entry with the given name. -/
def removeFile (uploadedFiles : List ImageFile) (fileName : String) :
    List ImageFile :=
  uploadedFiles.filter (fun f => f.name ≠ fileName)

/-- The five operating modes of `AppMode` in `types.ts`. -/
inductive AppMode where
  | OneModelNOutfits
  | NModelsOneOutfit
  | Editor
  | Generator
  | PosterPlacement
  deriving DecidableEq, Inhabited, Repr

/-- `ResultImage` from `types.ts`: produced image handle and output name. -/
structure ResultImage where
  src : String
  name : String
  deriving DecidableEq, Inhabited, Repr

/-- The App component state relevant to the orchestrator: active mode,
the four image registries, the instruction text, the result set, the
loading flag and the progress label. -/
structure AppState where
  mode : AppMode
  models : List ImageFile
  outfits : List ImageFile
  baseImage : List ImageFile
  poster : List ImageFile
  prompt : String
  results : List ResultImage
  isLoading : Bool
  loadingMessage : String
  deriving DecidableEq, Repr

/-- The default instruction for both paired try-on modes (also the
initial prompt of the app). -/
def tryOnDefaultPrompt : String :=
  "Create a photorealistic image of the model wearing the outfit. Match the lighting, shadows, and style for a seamless composition."

/-- The mode-specific default instruction set by `handleModeChange`. -/
def defaultPromptFor (m : AppMode) : String :=
  match m with
  | AppMode.Editor => "Add a retro filter to this image."
  | AppMode.Generator => "A vibrant, photorealistic image of a futuristic city at sunset."
  | AppMode.PosterPlacement => "Place this poster on a wall in a cozy bedroom, next to the bed. The poster should be frameless and blend naturally with the room\x27s lighting and perspective."
  | _ => tryOnDefaultPrompt

/-- `handleModeChange`: select the new mode, clear the result set and all
four registries, and reset the prompt to the mode-specific default. -/
def handleModeChange (s : AppState) (newMode : AppMode) : AppState :=
  { s with
    mode := newMode
    results := []
    models := []
    outfits := []
    baseImage := []
    poster := []
    prompt := defaultPromptFor newMode }

/-- `isGenerateButtonDisabled`: the submit guard computed from the
loading flag, mode, registries and prompt. -/
def isGenerateButtonDisabled (s : AppState) : Bool :=
  if s.isLoading then true
  else
    match s.mode with
    | AppMode.OneModelNOutfits => s.models.length == 0 || s.outfits.length == 0
    | AppMode.NModelsOneOutfit => s.models.length == 0 || s.outfits.length == 0
    | AppMode.Editor => s.baseImage.length == 0 || jsTrim s.prompt == ""
    | AppMode.Generator => jsTrim s.prompt == ""
    | AppMode.PosterPlacement => s.poster.length == 0 || jsTrim s.prompt == ""

/-- A descriptor of one Remote Image Operation call, matching the four
service entry points and their arguments. -/
inductive ApiCall where
  | generateVirtualTryOn (model : ImageFile) (outfit : ImageFile) (prompt : String)
  | editImage (image : ImageFile) (prompt : String)
  | generateImage (prompt : String)
  | placePosterOnWall (image : ImageFile) (prompt : String)
  deriving DecidableEq, Inhabited, Repr

/-- The stem used in paired-mode output names: `name.split('.')[0]`,
i.e. everything before the first dot. -/
def stem (name : String) : String := (name.splitOn ".").headD ""

/-- The sequential work plan `handleGenerate` executes for the current
state: one (call descriptor, output name) pair per unit, in input order.
Mirrors the per-mode branches of `handleGenerate`. -/
def workPlan (s : AppState) : List (ApiCall × String) :=
  match s.mode with
  | AppMode.OneModelNOutfits =>
    s.outfits.map (fun outfit =>
      (ApiCall.generateVirtualTryOn (s.models.headD default) outfit s.prompt,
       stem (s.models.headD default).name ++ "_" ++ stem outfit.name ++ ".png"))
  | AppMode.NModelsOneOutfit =>
    s.models.map (fun model =>
      (ApiCall.generateVirtualTryOn model (s.outfits.headD default) s.prompt,
       stem model.name ++ "_" ++ stem (s.outfits.headD default).name ++ ".png"))
  | AppMode.Editor =>
    [(ApiCall.editImage (s.baseImage.headD default) s.prompt,
      "edited_" ++ (s.baseImage.headD default).name)]
  | AppMode.Generator =>
    [(ApiCall.generateImage s.prompt, "generated_image.png")]
  | AppMode.PosterPlacement =>
    s.poster.map (fun p =>
      (ApiCall.placePosterOnWall p s.prompt, "poster_in_room_" ++ p.name))

/-- An oracle for the external generative-image service: given the index
of the call within the run and the call descriptor, it either returns the
produced image handle or fails. -/
def Oracle : Type := Nat → ApiCall → Except Unit String

/-- The all-success oracle built from a handle-producing function. -/
def okOracle (g : Nat → ApiCall → String) : Oracle :=
  fun i c => Except.ok (g i c)

/-- The sequential await-per-unit loop of `handleGenerate`: process the
units in order starting at call index `i`; on the first failure stop
immediately, recording which calls were issued.  Returns the issued
calls in order and either the accumulated `ResultImage` list or the
failure. -/
def runUnits (o : Oracle) :
    Nat → List (ApiCall × String) → List ApiCall × Except Unit (List ResultImage)
  | _, [] => ([], Except.ok [])
  | i, u :: rest =>
    match o i u.1 with
    | Except.error e => ([u.1], Except.error e)
    | Except.ok src =>
      match runUnits o (i + 1) rest with
      | (calls, Except.error e) => (u.1 :: calls, Except.error e)
      | (calls, Except.ok results) =>
        (u.1 :: calls, Except.ok ({ src := src, name := u.2 } :: results))

/-- `handleGenerate`: clear the result set, run the mode's work plan
sequentially against the oracle, and either install the full result list
(all-success) or leave the result set empty (any failure); in both cases
the loading flag and the progress label are cleared at the end.  Returns
the issued calls in order together with the final state. -/
def handleGenerate (o : Oracle) (s : AppState) : List ApiCall × AppState :=
  match runUnits o 0 (workPlan s) with
  | (calls, Except.ok generatedResults) =>
    (calls, { s with results := generatedResults, isLoading := false, loadingMessage := "" })
  | (calls, Except.error _) =>
    (calls, { s with results := [], isLoading := false, loadingMessage := "" })

/-- `downloadAllAsZip` from `fileUtils.ts`, with the browser fetch
modelled by an oracle from source handle to blob.  Returns the archive
contents (`none` when the empty-list early return fires, otherwise the
(name, blob) entries of the images whose fetch succeeded) and the list
of logged per-item fetch failures. -/
def downloadAllAsZip (fetchImage : String → Except Unit String)
    (images : List ResultImage) :
    Option (List (String × String)) × List String :=
  if images.length == 0 then (none, [])
  else
    (some (images.filterMap (fun image =>
        match fetchImage image.src with
        | Except.ok blob => some (image.name, blob)
        | Except.error _ => none)),
     images.filterMap (fun image =>
        match fetchImage image.src with
        | Except.ok _ => none
        | Except.error _ => some image.name))

/-- The spec's start condition, stated in its own words: not loading;
paired modes need an image on each side and no prompt constraint; the
editor needs an image and a non-empty trimmed prompt; the generator
needs only a non-empty trimmed prompt; poster placement needs an image
and a non-empty trimmed prompt. -/
def canStartSpec (s : AppState) : Prop :=
  s.isLoading = false ∧
  match s.mode with
  | AppMode.OneModelNOutfits => s.models ≠ [] ∧ s.outfits ≠ []
  | AppMode.NModelsOneOutfit => s.models ≠ [] ∧ s.outfits ≠ []
  | AppMode.Editor => s.baseImage ≠ [] ∧ jsTrim s.prompt ≠ ""
  | AppMode.Generator => jsTrim s.prompt ≠ ""
  | AppMode.PosterPlacement => s.poster ≠ [] ∧ jsTrim s.prompt ≠ ""

/-! ### Helper lemmas -/

/-- Under an all-success oracle the loop produces exactly this result list. -/
def runUnitsOk (g : Nat → ApiCall → String) :
    Nat → List (ApiCall × String) → List ResultImage
  | _, [] => []
  | i, u :: rest => { src := g i u.1, name := u.2 } :: runUnitsOk g (i + 1) rest

lemma runUnits_okOracle (g : Nat → ApiCall → String) :
    ∀ (i : Nat) (us : List (ApiCall × String)),
      runUnits (okOracle g) i us = (us.map Prod.fst, Except.ok (runUnitsOk g i us)) := by
  intro i us
  induction us generalizing i with
  | nil => rfl
  | cons u rest ih => simp [runUnits, runUnitsOk, okOracle, ih]

lemma runUnitsOk_map_name (g : Nat → ApiCall → String) :
    ∀ (i : Nat) (us : List (ApiCall × String)),
      (runUnitsOk g i us).map (fun r => r.name) = us.map Prod.snd := by
  intro i us
  induction us generalizing i with
  | nil => rfl
  | cons u rest ih => simp [runUnitsOk, ih]

lemma runUnitsOk_length (g : Nat → ApiCall → String) :
    ∀ (i : Nat) (us : List (ApiCall × String)),
      (runUnitsOk g i us).length = us.length := by
  intro i us
  induction us generalizing i with
  | nil => rfl
  | cons u rest ih => simp [runUnitsOk, ih]

lemma runUnits_fail (o : Oracle) :
    ∀ (us : List (ApiCall × String)) (i j : Nat), j < us.length →
      (∀ m, m < j → ∃ src, o (i + m) (us.getD m default).1 = Except.ok src) →
      o (i + j) (us.getD j default).1 = Except.error () →
      runUnits o i us = ((us.take (j + 1)).map Prod.fst, Except.error ()) := by
  intro us
  induction us with
  | nil =>
    intro i j hj _ _
    exact absurd hj (by simp)
  | cons u rest ih =>
    intro i j hj hsucc hfail
    cases j with
    | zero =>
      simp only [List.getD_cons_zero, Nat.add_zero] at hfail
      simp [runUnits, hfail]
    | succ m =>
      obtain ⟨src, hsrc⟩ := hsucc 0 (Nat.succ_pos m)
      simp only [List.getD_cons_zero, Nat.add_zero] at hsrc
      have hrest : runUnits o (i + 1) rest =
          ((rest.take (m + 1)).map Prod.fst, Except.error ()) := by
        refine ih (i + 1) m (by simpa using hj) ?_ ?_
        · intro m2 hm2
          obtain ⟨src2, hsrc2⟩ := hsucc (m2 + 1) (by omega)
          refine ⟨src2, ?_⟩
          have harith : i + (m2 + 1) = i + 1 + m2 := by omega
          simpa [harith] using hsrc2
        · have harith : i + (m + 1) = i + 1 + m := by omega
          simpa [harith] using hfail
      simp [runUnits, hsrc, hrest]

lemma map_drop_getLastD {α β : Type} (f : α → β) :
    ∀ (l : List α), l ≠ [] → ∀ (d : α),
      (l.map f).drop (l.length - 1) = [f (l.getLastD d)] := by
  intro l
  induction l with
  | nil => intro h; exact absurd rfl h
  | cons x t ih =>
    intro _ d
    cases t with
    | nil => rfl
    | cons y t2 =>
      have h2 : (y :: t2) ≠ [] := by simp
      have step := ih h2 x
      simpa [List.getLastD_cons] using step

/-! ### Claim theorems -/

/-- Claim C3: a run may start (the generate button is enabled) exactly
when not loading and: paired modes have at least one image on each side
with no prompt constraint; single-edit has an image and a non-empty
trimmed instruction; prompt-only has a non-empty trimmed instruction and
needs no images; poster placement has an image and a non-empty trimmed
instruction. -/
theorem generate_enabled_iff_canStart (s : AppState) :
    isGenerateButtonDisabled s = false ↔ canStartSpec s := by
  obtain ⟨mode, models, outfits, baseImage, poster, prompt, results, loading, msg⟩ := s
  cases loading <;> cases mode <;>
    simp [isGenerateButtonDisabled, canStartSpec, List.length_eq_zero]

/-- Claim C6: switching to any mode from any prior state empties all
four image registries, empties the result set, and sets the instruction
to that mode's documented default text. -/
theorem mode_switch_resets (s : AppState) (newMode : AppMode) :
    (handleModeChange s newMode).mode = newMode ∧
    (handleModeChange s newMode).models = [] ∧
    (handleModeChange s newMode).outfits = [] ∧
    (handleModeChange s newMode).baseImage = [] ∧
    (handleModeChange s newMode).poster = [] ∧
    (handleModeChange s newMode).results = [] ∧
    (handleModeChange s newMode).prompt = defaultPromptFor newMode :=
  ⟨rfl, rfl, rfl, rfl, rfl, rfl, rfl⟩

/-- Claim C10: an add whose batch contains no image payloads (empty, or
all entries filtered out) leaves any registry's selection unchanged and
emits no files-changed notification. -/
theorem filtered_add_is_noop (props : UploaderProps) (st : List ImageFile)
    (bs : List File) (h : bs.filter isImagePayload = []) :
    handleFiles props st (some bs) = (st, none) := by
  simp [handleFiles, h]

/-- Claim C5: a single-select slot given a non-empty batch of image
files keeps exactly one entry, the last file of the batch; prior
selections and the other files of the drop are discarded. -/
theorem single_select_keeps_last (lim : Option Nat) (st : List ImageFile)
    (bs : List File) (hbs : bs ≠ []) (himg : ∀ f ∈ bs, isImagePayload f = true) :
    handleFiles ⟨false, lim⟩ st (some bs) =
      ([mkImageFile (bs.getLastD default)],
       some [mkImageFile (bs.getLastD default)]) := by
  have hfilter : bs.filter isImagePayload = bs := List.filter_eq_self.mpr himg
  have hdrop := map_drop_getLastD mkImageFile bs hbs default
  simp [handleFiles, hfilter, List.length_eq_zero, hbs, hdrop]

/-- Claim C4: a multi-select slot with configured limit L (L ≥ 1) given
a non-empty batch of image files appends the batch to the current
selection; whenever the cumulative count exceeds L it keeps exactly the
most-recently-added L files in their original relative order (the
oldest entries are dropped from the front). -/
theorem multi_select_truncates (L : Nat) (st : List ImageFile) (bs : List File)
    (hL : 1 ≤ L) (hbs : bs ≠ []) (himg : ∀ f ∈ bs, isImagePayload f = true) :
    (handleFiles ⟨true, some L⟩ st (some bs)).1 =
      (if (st ++ bs.map mkImageFile).length ≤ L then st ++ bs.map mkImageFile
       else (st ++ bs.map mkImageFile).drop ((st ++ bs.map mkImageFile).length - L)) ∧
    (L < (st ++ bs.map mkImageFile).length →
      (handleFiles ⟨true, some L⟩ st (some bs)).1.length = L) := by
  have hfilter : bs.filter isImagePayload = bs := List.filter_eq_self.mpr himg
  have hL0 : L ≠ 0 := by omega
  by_cases hlen : L < (st ++ bs.map mkImageFile).length
  · have hlen2 : L < st.length + bs.length := by simpa using hlen
    have h1 : (handleFiles ⟨true, some L⟩ st (some bs)).1 =
        (st ++ bs.map mkImageFile).drop ((st ++ bs.map mkImageFile).length - L) := by
      simp [handleFiles, hfilter, List.length_eq_zero, hbs, hL0, hlen2]
    refine ⟨?_, fun _ => ?_⟩
    · rw [h1, if_neg (by omega)]
    · rw [h1, List.length_drop]
      simp only [List.length_append, List.length_map] at hlen2 ⊢
      omega
  · have hlen2 : ¬ L < st.length + bs.length := by simpa using hlen
    have h1 : (handleFiles ⟨true, some L⟩ st (some bs)).1 =
        st ++ bs.map mkImageFile := by
      simp [handleFiles, hfilter, List.length_eq_zero, hbs, hL0, hlen2]
    exact ⟨by rw [h1, if_pos (by omega)], fun hc => absurd hc hlen⟩

/-- Claim C1: an all-success paired one-to-many run over a fixed primary
image and N ≥ 1 secondary images issues exactly N Remote Image Operation
calls sequentially in input order, and the result list has length N with
the i-th name `{primary_stem}_{secondary_i_stem}.png` (stem = segment
before the first dot), in input order. -/
theorem paired_one_to_many_success (g : Nat → ApiCall → String) (s : AppState)
    (hmode : s.mode = AppMode.OneModelNOutfits)
    (hmodels : s.models ≠ []) (houtfits : s.outfits ≠ []) :
    (handleGenerate (okOracle g) s).1 =
      s.outfits.map (fun outfit =>
        ApiCall.generateVirtualTryOn (s.models.headD default) outfit s.prompt) ∧
    (handleGenerate (okOracle g) s).1.length = s.outfits.length ∧
    ((handleGenerate (okOracle g) s).2.results).map (fun r => r.name) =
      s.outfits.map (fun outfit =>
        stem (s.models.headD default).name ++ "_" ++ stem outfit.name ++ ".png") ∧
    ((handleGenerate (okOracle g) s).2.results).length = s.outfits.length := by
  have hplan : workPlan s = s.outfits.map (fun outfit =>
      (ApiCall.generateVirtualTryOn (s.models.headD default) outfit s.prompt,
       stem (s.models.headD default).name ++ "_" ++ stem outfit.name ++ ".png")) := by
    simp [workPlan, hmode]
  have hrun := runUnits_okOracle g 0 (workPlan s)
  have hg : handleGenerate (okOracle g) s =
      ((workPlan s).map Prod.fst,
       { s with results := runUnitsOk g 0 (workPlan s),
                isLoading := false, loadingMessage := "" }) := by
    simp [handleGenerate, hrun]
  rw [hg]
  refine ⟨?_, ?_, ?_, ?_⟩
  · rw [hplan, List.map_map]
    rfl
  · simp [hplan]
  · show (runUnitsOk g 0 (workPlan s)).map (fun r => r.name) = _
    rw [runUnitsOk_map_name, hplan, List.map_map]
    rfl
  · show (runUnitsOk g 0 (workPlan s)).length = _
    rw [runUnitsOk_length, hplan]
    simp

/-- Claim C2: if the k-th call of a batch run of N units fails, calls
k+1 through N are never issued (only the first k calls happen), the run
ends with the result set empty (the partial results accumulated before
the failure are discarded), and the loading flag and progress label are
cleared. -/
theorem batch_failure_fail_fast (o : Oracle) (s : AppState) (k : Nat)
    (hk1 : 1 ≤ k) (hkN : k ≤ (workPlan s).length)
    (hsucc : ∀ m, m + 1 < k →
      ∃ src, o m ((workPlan s).getD m default).1 = Except.ok src)
    (hfail : o (k - 1) ((workPlan s).getD (k - 1) default).1 = Except.error ()) :
    (handleGenerate o s).1 = ((workPlan s).take k).map Prod.fst ∧
    (handleGenerate o s).1.length = k ∧
    (handleGenerate o s).2.results = [] ∧
    (handleGenerate o s).2.isLoading = false ∧
    (handleGenerate o s).2.loadingMessage = "" := by
  have hk : k - 1 + 1 = k := by omega
  have hrun := runUnits_fail o (workPlan s) 0 (k - 1) (by omega)
    (fun m hm => by simpa using hsucc m (by omega))
    (by simpa using hfail)
  rw [hk] at hrun
  have hg : handleGenerate o s =
      (((workPlan s).take k).map Prod.fst,
       { s with results := [], isLoading := false, loadingMessage := "" }) := by
    simp [handleGenerate, hrun]
  rw [hg]
  refine ⟨rfl, ?_, rfl, rfl, rfl⟩
  simp only [List.length_map, List.length_take]
  omega

/-- Claim C7: a successful single-edit run issues exactly one call and
its single result is named `edited_` followed by the original file's
full display name, extension included. -/
theorem single_edit_success (g : Nat → ApiCall → String) (s : AppState)
    (hmode : s.mode = AppMode.Editor) (himg : s.baseImage ≠ []) :
    (handleGenerate (okOracle g) s).1 =
      [ApiCall.editImage (s.baseImage.headD default) s.prompt] ∧
    (handleGenerate (okOracle g) s).2.results =
      [{ src := g 0 (ApiCall.editImage (s.baseImage.headD default) s.prompt),
         name := "edited_" ++ (s.baseImage.headD default).name }] := by
  have hplan : workPlan s =
      [(ApiCall.editImage (s.baseImage.headD default) s.prompt,
        "edited_" ++ (s.baseImage.headD default).name)] := by
    simp [workPlan, hmode]
  have hrun := runUnits_okOracle g 0 (workPlan s)
  rw [hplan] at hrun
  unfold handleGenerate
  rw [hplan, hrun]
  exact ⟨rfl, rfl⟩

/-- Claim C8: a successful prompt-only generation run with a non-empty
instruction requires no input images, issues exactly one call, and its
single result carries the fixed literal name `generated_image.png`. -/
theorem prompt_only_success (g : Nat → ApiCall → String) (s : AppState)
    (hmode : s.mode = AppMode.Generator) (hp : jsTrim s.prompt ≠ "") :
    (handleGenerate (okOracle g) s).1 = [ApiCall.generateImage s.prompt] ∧
    (handleGenerate (okOracle g) s).2.results =
      [{ src := g 0 (ApiCall.generateImage s.prompt),
         name := "generated_image.png" }] := by
  have hplan : workPlan s =
      [(ApiCall.generateImage s.prompt, "generated_image.png")] := by
    simp [workPlan, hmode]
  have hrun := runUnits_okOracle g 0 (workPlan s)
  rw [hplan] at hrun
  simp [handleGenerate, hplan, hrun, runUnitsOk]

/-- Claim C9: when packaging a non-empty result list, archive creation
proceeds even if individual fetches fail; the archive contains exactly
the entries whose fetch succeeded, each under its derived output name,
and every failed fetch is logged. -/
theorem packaging_omits_failed_fetches (fetchImage : String → Except Unit String)
    (images : List ResultImage) (h : images ≠ []) :
    ∃ zs, (downloadAllAsZip fetchImage images).1 = some zs ∧
      (∀ nm b, (nm, b) ∈ zs ↔
        ∃ img, img ∈ images ∧ img.name = nm ∧ fetchImage img.src = Except.ok b) ∧
      (∀ img, img ∈ images → fetchImage img.src = Except.error () →
        img.name ∈ (downloadAllAsZip fetchImage images).2) := by
  have hlen : (images.length == 0) = false := by
    simp [List.length_eq_zero, h]
  refine ⟨images.filterMap (fun image =>
      match fetchImage image.src with
      | Except.ok blob => some (image.name, blob)
      | Except.error _ => none), ?_, ?_, ?_⟩
  · simp [downloadAllAsZip, hlen]
  · intro nm b
    simp only [List.mem_filterMap]
    constructor
    · rintro ⟨img, himg, hf⟩
      cases h2 : fetchImage img.src with
      | ok blob =>
        rw [h2] at hf
        simp only [Option.some.injEq, Prod.mk.injEq] at hf
        exact ⟨img, himg, hf.1, by rw [h2, hf.2]⟩
      | error e =>
        rw [h2] at hf
        simp at hf
    · rintro ⟨img, himg, hnm, hok⟩
      refine ⟨img, himg, ?_⟩
      rw [hok, hnm]
  · intro img himg herr
    have h2 : (downloadAllAsZip fetchImage images).2 = images.filterMap (fun image =>
        match fetchImage image.src with
        | Except.ok _ => none
        | Except.error _ => some image.name) := by
      simp [downloadAllAsZip, hlen]
    rw [h2]
    exact List.mem_filterMap.mpr ⟨img, himg, by rw [herr]⟩

/-! ### Concrete fixtures and witnesses -/

/-- A concrete model photo. -/
def exModelFile : File := { name := "model.v2.jpg", type := "image/jpeg" }

/-- A concrete first outfit photo. -/
def exOutfitFile1 : File := { name := "outfit1.jpg", type := "image/jpeg" }

/-- A concrete second outfit photo. -/
def exOutfitFile2 : File := { name := "outfit2.png", type := "image/png" }

/-- A concrete non-image payload. -/
def exTextFile : File := { name := "notes.txt", type := "text/plain" }

/-- A concrete photo for the editor slot. -/
def exBaseFile : File := { name := "photo.png", type := "image/png" }

/-- A concrete paired one-to-many state: one model, two outfits. -/
def exTryOnState : AppState :=
  { mode := AppMode.OneModelNOutfits
    models := [mkImageFile exModelFile]
    outfits := [mkImageFile exOutfitFile1, mkImageFile exOutfitFile2]
    baseImage := []
    poster := []
    prompt := tryOnDefaultPrompt
    results := []
    isLoading := false
    loadingMessage := "" }

theorem paired_one_to_many_success_witness :
    exTryOnState.mode = AppMode.OneModelNOutfits ∧
    exTryOnState.models ≠ [] ∧ exTryOnState.outfits ≠ [] ∧
    ((handleGenerate (okOracle fun _ _ => "img") exTryOnState).1 =
      exTryOnState.outfits.map (fun outfit =>
        ApiCall.generateVirtualTryOn (exTryOnState.models.headD default) outfit
          exTryOnState.prompt) ∧
     (handleGenerate (okOracle fun _ _ => "img") exTryOnState).1.length =
       exTryOnState.outfits.length ∧
     ((handleGenerate (okOracle fun _ _ => "img") exTryOnState).2.results).map
         (fun r => r.name) =
       exTryOnState.outfits.map (fun outfit =>
         stem (exTryOnState.models.headD default).name ++ "_" ++
           stem outfit.name ++ ".png") ∧
     ((handleGenerate (okOracle fun _ _ => "img") exTryOnState).2.results).length =
       exTryOnState.outfits.length) :=
  ⟨rfl, by decide, by decide,
   paired_one_to_many_success (fun _ _ => "img") exTryOnState rfl (by decide) (by decide)⟩

/-- A concrete prompt-only generation state, with stale results and a
stale progress label left over from earlier interaction. -/
def exGeneratorState : AppState :=
  { mode := AppMode.Generator
    models := []
    outfits := []
    baseImage := []
    poster := []
    prompt := "a cat wearing a hat"
    results := [{ src := "old", name := "old.png" }]
    isLoading := false
    loadingMessage := "stale" }

/-- An oracle that fails every call. -/
def exFailOracle : Oracle := fun _ _ => Except.error ()

theorem batch_failure_fail_fast_witness :
    1 ≤ 1 ∧ 1 ≤ (workPlan exGeneratorState).length ∧
    (∀ m, m + 1 < 1 →
      ∃ src, exFailOracle m ((workPlan exGeneratorState).getD m default).1 =
        Except.ok src) ∧
    exFailOracle 0 ((workPlan exGeneratorState).getD 0 default).1 =
      Except.error () ∧
    ((handleGenerate exFailOracle exGeneratorState).1 =
        ((workPlan exGeneratorState).take 1).map Prod.fst ∧
      (handleGenerate exFailOracle exGeneratorState).1.length = 1 ∧
      (handleGenerate exFailOracle exGeneratorState).2.results = [] ∧
      (handleGenerate exFailOracle exGeneratorState).2.isLoading = false ∧
      (handleGenerate exFailOracle exGeneratorState).2.loadingMessage = "") :=
  ⟨le_refl 1, by decide, fun m hm => absurd hm (by omega), rfl,
   batch_failure_fail_fast exFailOracle exGeneratorState 1 (le_refl 1) (by decide)
     (fun m hm => absurd hm (by omega)) rfl⟩

/-- A pre-existing multi-select selection of one image. -/
def exStockImage : ImageFile := mkImageFile { name := "stock.png", type := "image/png" }

theorem multi_select_truncates_witness :
    1 ≤ 2 ∧ [exOutfitFile1, exOutfitFile2] ≠ ([] : List File) ∧
    (∀ f ∈ [exOutfitFile1, exOutfitFile2], isImagePayload f = true) ∧
    ((handleFiles ⟨true, some 2⟩ [exStockImage]
        (some [exOutfitFile1, exOutfitFile2])).1 =
      (if ([exStockImage] ++ [exOutfitFile1, exOutfitFile2].map mkImageFile).length ≤ 2
       then [exStockImage] ++ [exOutfitFile1, exOutfitFile2].map mkImageFile
       else ([exStockImage] ++ [exOutfitFile1, exOutfitFile2].map mkImageFile).drop
         (([exStockImage] ++ [exOutfitFile1, exOutfitFile2].map mkImageFile).length - 2)) ∧
     (2 < ([exStockImage] ++ [exOutfitFile1, exOutfitFile2].map mkImageFile).length →
       (handleFiles ⟨true, some 2⟩ [exStockImage]
         (some [exOutfitFile1, exOutfitFile2])).1.length = 2)) :=
  ⟨by decide, by decide, by decide,
   multi_select_truncates 2 [exStockImage] [exOutfitFile1, exOutfitFile2]
     (by decide) (by decide) (by decide)⟩

theorem single_select_keeps_last_witness :
    [exOutfitFile1, exOutfitFile2] ≠ ([] : List File) ∧
    (∀ f ∈ [exOutfitFile1, exOutfitFile2], isImagePayload f = true) ∧
    handleFiles ⟨false, none⟩ [exStockImage] (some [exOutfitFile1, exOutfitFile2]) =
      ([mkImageFile ([exOutfitFile1, exOutfitFile2].getLastD default)],
       some [mkImageFile ([exOutfitFile1, exOutfitFile2].getLastD default)]) :=
  ⟨by decide, by decide,
   single_select_keeps_last none [exStockImage] [exOutfitFile1, exOutfitFile2]
     (by decide) (by decide)⟩

/-- A concrete single-edit state. -/
def exEditorState : AppState :=
  { mode := AppMode.Editor
    models := []
    outfits := []
    baseImage := [mkImageFile exBaseFile]
    poster := []
    prompt := "Add a retro filter to this image."
    results := []
    isLoading := false
    loadingMessage := "" }

theorem single_edit_success_witness :
    exEditorState.mode = AppMode.Editor ∧ exEditorState.baseImage ≠ [] ∧
    ((handleGenerate (okOracle fun _ _ => "img") exEditorState).1 =
      [ApiCall.editImage (exEditorState.baseImage.headD default) exEditorState.prompt] ∧
     (handleGenerate (okOracle fun _ _ => "img") exEditorState).2.results =
      [{ src := (fun (_ : Nat) (_ : ApiCall) => "img") 0
           (ApiCall.editImage (exEditorState.baseImage.headD default) exEditorState.prompt),
         name := "edited_" ++ (exEditorState.baseImage.headD default).name }]) :=
  ⟨rfl, by decide,
   single_edit_success (fun _ _ => "img") exEditorState rfl (by decide)⟩

theorem prompt_only_success_witness :
    exGeneratorState.mode = AppMode.Generator ∧
    jsTrim exGeneratorState.prompt ≠ "" ∧
    ((handleGenerate (okOracle fun _ _ => "img") exGeneratorState).1 =
      [ApiCall.generateImage exGeneratorState.prompt] ∧
     (handleGenerate (okOracle fun _ _ => "img") exGeneratorState).2.results =
      [{ src := (fun (_ : Nat) (_ : ApiCall) => "img") 0
           (ApiCall.generateImage exGeneratorState.prompt),
         name := "generated_image.png" }]) :=
  ⟨rfl, by decide,
   prompt_only_success (fun _ _ => "img") exGeneratorState rfl (by decide)⟩

/-- A concrete result list for packaging. -/
def exResults : List ResultImage :=
  [{ src := "srcA", name := "a.png" }, { src := "srcB", name := "b.png" }]

/-- A fetch oracle that succeeds on the first source and fails on the rest. -/
def exFetch : String → Except Unit String :=
  fun s => if s = "srcA" then Except.ok "blobA" else Except.error ()

theorem packaging_omits_failed_fetches_witness :
    exResults ≠ [] ∧
    (∃ zs, (downloadAllAsZip exFetch exResults).1 = some zs ∧
      (∀ nm b, (nm, b) ∈ zs ↔
        ∃ img, img ∈ exResults ∧ img.name = nm ∧ exFetch img.src = Except.ok b) ∧
      (∀ img, img ∈ exResults → exFetch img.src = Except.error () →
        img.name ∈ (downloadAllAsZip exFetch exResults).2)) :=
  ⟨by decide, packaging_omits_failed_fetches exFetch exResults (by decide)⟩

theorem filtered_add_is_noop_witness :
    [exTextFile].filter isImagePayload = [] ∧
    handleFiles ⟨false, none⟩ [exStockImage] (some [exTextFile]) =
      ([exStockImage], none) :=
  ⟨by decide,
   filtered_add_is_noop ⟨false, none⟩ [exStockImage] [exTextFile] (by decide)⟩
